import Mathlib

/-
Verification development for the wavgen song-language front end.

Shallow embedding of the Rust sources:
  src/parse/mod.rs        (song/source/effect parser, shunting-yard expression
                           sub-parser, expression AST and evaluator)
  src/parse/tokenizer.rs  (numeric-literal suffix consumer)
  src/gen.rs              (sample-generation engine)

Modelling conventions:
  - f64 values are modelled as exact rationals (ℚ).  All arithmetic the
    verified claims exercise (+, -, *, /, comparisons on small literals) is
    exact in f64, so ℚ is faithful there.  Genuinely transcendental or
    rounding-sensitive operations (powf, sin and the other math functions,
    the constants pi/e/TAU, the f64 % operator) are abstracted into a
    `FloatModel` record of uninterpreted ℚ-functions; theorems that depend
    on a numeric fact about one of them take that fact as a hypothesis
    (each hypothesis is a true statement about the corresponding f64
    operation, e.g. sin(0.0) = 0.0 exactly).
  - The token stream feeding the parser is modelled as a `List Token`
    (the real parser pulls tokens lazily from the tokenizer); the parser's
    one-token pushback `Vec` is a `List Token` whose head is the Vec's top.
  - The custom three-way control value `ParserResult` (Some/Err/Done) from
    src/parse/result.rs is embedded as `PRes`, extended with a `panic`
    outcome that models `todo!()` / `.unwrap()` panics, and a `nofuel`
    outcome used only as a recursion bound for the parser's loops (each
    loop consumes at least one token per iteration, so a bound of
    "number of remaining tokens + 1" is never reached on runs the real
    program completes; see the comments at each loop).
-/

deriving instance DecidableEq for Except

namespace Wavgen

/-- Numeric payload of a `NumberLiteral` token as used by src/parse/mod.rs
(`Number::Integer`, `Number::Real`); `Real` carries the exact rational value
of the f64. -/
inductive Number where
  | Integer (i : Nat)
  | Real (r : ℚ)
deriving DecidableEq

/-- The `impl From<Number> for f64` conversion (`let n: f64 = n.into()`). -/
def Number.toRat : Number → ℚ
  | Number.Integer i => (i : ℚ)
  | Number.Real r => r

/-- Token kinds of src/parse/mod.rs (`TokenType as Ty`).  Only the variants
the embedded parser functions inspect are included; the remaining ~40
operator variants of the full enum never influence those functions beyond
falling into their catch-all arms, which the extra `Semicolon` variant
exercises. -/
inductive Ty where
  | NumberLiteral (n : Number)
  | Identifier
  | StringLiteral (s : String)
  | OnKw
  | Plus
  | Minus
  | Star
  | Slash
  | Caret
  | Percent
  | LeftParenthesis
  | RightParenthesis
  | LeftCurlyBraces
  | RightCurlyBraces
  | Colon
  | Comma
  | AtSign
  | Semicolon
deriving DecidableEq

/-- A token: its kind plus the source text backing its position
(`token.position.get_text()` / `token.text()` in the Rust code, which the
parser consults for identifier names and terminator checks). -/
structure Token where
  ty : Ty
  text : String
deriving DecidableEq

/-- The fixed closed set of unary math functions (src/parse/mod.rs `MathFunc`). -/
inductive MathFunc where
  | Sin
  | Cos
  | Tan
  | Ln
  | Log10
  | Log2
  | Sqrt
  | Abs
  | Round
  | Floor
  | Ceil
  | Rad
  | Deg
deriving DecidableEq

/-- `MathFunc::from_str` (src/parse/mod.rs). -/
def MathFunc.fromStr : String → Option MathFunc
  | "sin" => some MathFunc.Sin
  | "cos" => some MathFunc.Cos
  | "tan" => some MathFunc.Tan
  | "ln" => some MathFunc.Ln
  | "lg" => some MathFunc.Log10
  | "log10" => some MathFunc.Log10
  | "log2" => some MathFunc.Log2
  | "sqrt" => some MathFunc.Sqrt
  | "abs" => some MathFunc.Abs
  | "round" => some MathFunc.Round
  | "floor" => some MathFunc.Floor
  | "ceil" => some MathFunc.Ceil
  | "rad" => some MathFunc.Rad
  | "deg" => some MathFunc.Deg
  | _ => none

/-- `MathFunc::is_func` (src/parse/mod.rs). -/
def MathFunc.is_func (s : String) : Bool := (MathFunc.fromStr s).isSome

/-- The expression AST (src/parse/mod.rs `Expression`).  Constructor argument
order is the Rust field order; note that `Expression::evaluate` pattern-matches
binary nodes as `(b, a)` and computes `a op b`, i.e. the SECOND field is the
left operand. -/
inductive Expression where
  | Add (b a : Expression)
  | Sub (b a : Expression)
  | Mul (b a : Expression)
  | Div (b a : Expression)
  | Pow (b a : Expression)
  | Mod (b a : Expression)
  | Call (f : MathFunc) (arg : Expression)
  | VarOrConst (name : String)
  | Lit (n : Number)
deriving DecidableEq

/-- `Expression::zero()` (src/parse/mod.rs): the literal `0.0`. -/
def Expression.zero : Expression := Expression.Lit (Number.Real 0)

/-- Expression evaluation errors (src/parse/mod.rs `ExpressionError`). -/
inductive ExpressionError where
  | UnknownVar (name : String)
  | NoGenInfo
deriving DecidableEq

/-- Generation context (src/gen.rs `GenInfo`): current channel and the
scope-normalized time. -/
structure GenInfo where
  channel : Nat
  t : ℚ
deriving DecidableEq

/-- Abstraction of the f64 operations that are not exact rational arithmetic:
the math-function table (`MathFunc::call`), `f64::powf`, the `%` operator on
f64, `f64::sin` and the constants PI, E and TAU.  Theorems that need a numeric
fact about one of these take it as a hypothesis (true of the real f64 ops). -/
structure FloatModel where
  call : MathFunc → ℚ → ℚ
  powf : ℚ → ℚ → ℚ
  modf : ℚ → ℚ → ℚ
  sinF : ℚ → ℚ
  piV : ℚ
  eV : ℚ
  tauV : ℚ

/-- `Expression::evaluate` (src/parse/mod.rs lines 563-589).  Binary nodes are
matched as `(b, a)` and evaluate `a` first, then `b` (mirroring
`a.evaluate(gi)? OP b.evaluate(gi)?`).  The variable match mirrors the Rust
string match including the constant name spelled `Ï€` in the source file. -/
def Expression.evaluate (M : FloatModel) (gi : Option GenInfo) :
    Expression → Except ExpressionError ℚ
  | Expression.Add b a =>
    (Expression.evaluate M gi a).bind fun va =>
    (Expression.evaluate M gi b).bind fun vb => Except.ok (va + vb)
  | Expression.Sub b a =>
    (Expression.evaluate M gi a).bind fun va =>
    (Expression.evaluate M gi b).bind fun vb => Except.ok (va - vb)
  | Expression.Mul b a =>
    (Expression.evaluate M gi a).bind fun va =>
    (Expression.evaluate M gi b).bind fun vb => Except.ok (va * vb)
  | Expression.Div b a =>
    (Expression.evaluate M gi a).bind fun va =>
    (Expression.evaluate M gi b).bind fun vb => Except.ok (va / vb)
  | Expression.Mod b a =>
    (Expression.evaluate M gi a).bind fun va =>
    (Expression.evaluate M gi b).bind fun vb => Except.ok (M.modf va vb)
  | Expression.Pow b a =>
    (Expression.evaluate M gi a).bind fun va =>
    (Expression.evaluate M gi b).bind fun vb => Except.ok (M.powf va vb)
  | Expression.Call f arg =>
    (Expression.evaluate M gi arg).bind fun x => Except.ok (M.call f x)
  | Expression.VarOrConst name =>
    if name = "pi" ∨ name = "Ï€" then Except.ok M.piV
    else if name = "e" then Except.ok M.eV
    else if name = "channel" ∨ name = "ch" then
      match gi with
      | some g => Except.ok (g.channel : ℚ)
      | none => Except.error ExpressionError.NoGenInfo
    else if name = "t" then
      match gi with
      | some g => Except.ok g.t
      | none => Except.error ExpressionError.NoGenInfo
    else Except.error (ExpressionError.UnknownVar name)
  | Expression.Lit n => Except.ok n.toRat

/-- Does the expression reference one of the context-dependent variables
`t`, `channel` or `ch`?  (Analysis helper for claim C5; not from the source.) -/
def Expression.refs_context : Expression → Bool
  | Expression.Add b a | Expression.Sub b a | Expression.Mul b a
  | Expression.Div b a | Expression.Pow b a | Expression.Mod b a =>
    Expression.refs_context b || Expression.refs_context a
  | Expression.Call _ arg => Expression.refs_context arg
  | Expression.VarOrConst name => decide (name = "channel" ∨ name = "ch" ∨ name = "t")
  | Expression.Lit _ => false

/-- Are all variable names referenced by the expression in `allowed`?
(Analysis helper for claim C5; not from the source.) -/
def Expression.names_in (allowed : List String) : Expression → Bool
  | Expression.Add b a | Expression.Sub b a | Expression.Mul b a
  | Expression.Div b a | Expression.Pow b a | Expression.Mod b a =>
    Expression.names_in allowed b && Expression.names_in allowed a
  | Expression.Call _ arg => Expression.names_in allowed arg
  | Expression.VarOrConst name => decide (name ∈ allowed)
  | Expression.Lit _ => true

/-- The names the evaluator recognizes (the match arms of
`Expression::evaluate`'s `VarOrConst` case). -/
def known_names : List String := [r"pi", r"Ï€", r"e", r"channel", r"ch", r"t"]

/-- The names resolvable without a generation context. -/
def const_names : List String := [r"pi", r"Ï€", r"e"]

/- ------------------------------------------------------------------
   The song data model produced by the parser (src/gen.rs).
   ------------------------------------------------------------------ -/

/-- Channel selector (src/gen.rs `Channels`). -/
inductive Channels where
  | List (l : List Nat)
  | One (c : Nat)
  | All
deriving DecidableEq

/-- `Channels::has` (src/gen.rs lines 72-78). -/
def Channels.has : Channels → Nat → Bool
  | Channels.List l, c => l.contains c
  | Channels.One ch, c => c = ch
  | Channels.All, _ => true

/-- Waveform kind (src/gen.rs `PeriodicSource`). -/
inductive PeriodicSource where
  | Sine
  | Saw
  | Square
  | Triangle
deriving DecidableEq

/-- Source payload (src/gen.rs `SourceType`): a periodic waveform with
frequency and phase expressions. -/
inductive SourceType where
  | Periodic (freq phase : Expression) (ty : PeriodicSource)
deriving DecidableEq

/-- Projection of the phase expression out of a `SourceType`. -/
def SourceType.phase : SourceType → Expression
  | SourceType.Periodic _ p _ => p

/-- Effect kind (src/gen.rs `EffectType`). -/
inductive EffectType where
  | FadeIn
  | FadeOut
deriving DecidableEq

/-- A time-windowed envelope effect (src/gen.rs `Effect`); `start`/`end` are
fractions of the owning source's duration. -/
structure Effect where
  ty : EffectType
  start : ℚ
  «end» : ℚ
deriving DecidableEq

/-- A waveform source (src/gen.rs `Source`); `start`/`end` are fractions of
the song length. -/
structure Source where
  ty : SourceType
  start : ℚ
  «end» : ℚ
  volume : Expression
  channels : Channels
  effects : List Effect
deriving DecidableEq

/-- The top-level song (src/gen.rs `Song`). -/
structure Song where
  name : String
  channels : Nat
  length_s : ℚ
  sources : List Source
deriving DecidableEq

/- ------------------------------------------------------------------
   Parser plumbing (src/parse/mod.rs, src/parse/result.rs).
   ------------------------------------------------------------------ -/

/-- Parser errors (src/parse/mod.rs `ParserError`).  The tokenizer-error
payload is omitted: the token-stream model never produces one. -/
inductive ParserError where
  | MissingName
  | MissingDuration
  | MissingChannels
  | TokenizerError
  | Unexpected (ty : Ty)
  | UnexpectedExact (expected found : Ty)
  | Expression (e : ExpressionError)
deriving DecidableEq

/-- The three-way control value `ParserResult` (src/parse/result.rs:
`Some`/`Err`/`Done`), extended with a `panic` outcome modelling `todo!()`
and `.unwrap()` panics, and a `nofuel` outcome that only bounds the
parser's loops (see the file header). -/
inductive PRes (α : Type) where
  | some (a : α)
  | err (e : ParserError)
  | done
  | panic
  | nofuel
deriving DecidableEq

/-- Parser state (src/parse/mod.rs `Parser`): the two fields the grammar
reads/writes, the pending token stream (`input`, standing for the lazy
tokenizer) and the pushback buffer (head = top of the Rust `Vec`).
`Parser::new` sets `song_length_s` to NaN; the model uses 0 — the field is
only read after `parse_song` overwrites it. -/
structure ParserState where
  song_channels : Nat
  song_length_s : ℚ
  buffer : List Token
  input : List Token
deriving DecidableEq

/-- Number of tokens still available to the parser. -/
def ParserState.size (st : ParserState) : Nat := st.buffer.length + st.input.length

/-- `Parser::get_token` (src/parse/mod.rs lines 124-135): pop the pushback
buffer, else pull the next token; exhaustion is `Done`. -/
def get_token (st : ParserState) : ParserState × PRes Token :=
  match st.buffer with
  | t :: rest => ({ st with buffer := rest }, PRes.some t)
  | [] =>
    match st.input with
    | t :: rest => ({ st with input := rest }, PRes.some t)
    | [] => (st, PRes.done)

/-- Push a token back onto the pushback buffer (`self.buffer.push(t)`). -/
def push_buffer (st : ParserState) (t : Token) : ParserState :=
  { st with buffer := t :: st.buffer }

/-- `Parser::eat` (src/parse/mod.rs lines 137-149): take a token and demand
an exact kind; on mismatch push it back and fail. -/
def eat (st : ParserState) (expected : Ty) : ParserState × PRes Token :=
  match get_token st with
  | (st', PRes.some t) =>
    if t.ty = expected then (st', PRes.some t)
    else (push_buffer st' t, PRes.err (ParserError.UnexpectedExact expected t.ty))
  | (st', PRes.err e) => (st', PRes.err e)
  | (st', PRes.done) => (st', PRes.done)
  | (st', PRes.panic) => (st', PRes.panic)
  | (st', PRes.nofuel) => (st', PRes.nofuel)

/-- Sequencing that models the `?` operator on `ParserResult`: a `Some`
continues, everything else propagates (with the state at that point). -/
def pstep {α β : Type} (r : ParserState × PRes α)
    (f : α → ParserState → ParserState × PRes β) : ParserState × PRes β :=
  match r with
  | (st, PRes.some a) => f a st
  | (st, PRes.err e) => (st, PRes.err e)
  | (st, PRes.done) => (st, PRes.done)
  | (st, PRes.panic) => (st, PRes.panic)
  | (st, PRes.nofuel) => (st, PRes.nofuel)

/-- Terminator decision for the expression sub-parser
(src/parse/mod.rs `Terminate`). -/
inductive Terminate where
  | Yes (discard_tok : Bool)
  | No
deriving DecidableEq

/- ------------------------------------------------------------------
   The shunting-yard expression sub-parser
   (src/parse/mod.rs `Parser::parse_expression`, lines 350-520).
   Stacks/queues are Lists whose head is the end of the Rust Vec
   (the push/pop side).
   ------------------------------------------------------------------ -/

/-- Operator precedence (src/parse/mod.rs lines 357-364).  The Rust closure
panics (`unreachable!()`) on other kinds; the model returns 0, a value those
kinds never feed into a comparison that matters (see `op_pop_cond`). -/
def prec : Ty → Nat
  | Ty.LeftParenthesis => 0
  | Ty.Plus | Ty.Minus => 1
  | Ty.Slash | Ty.Star | Ty.Percent => 2
  | Ty.Caret => 3
  | _ => 0

/-- Operator associativity (src/parse/mod.rs lines 366-379).  The Rust
closure panics on non-operators; the model returns `NonAssoc`. -/
inductive Assoc where
  | Left
  | Right
  | NonAssoc
deriving DecidableEq

/-- See `Assoc`. -/
def assoc : Ty → Assoc
  | Ty.LeftParenthesis | Ty.RightParenthesis => Assoc.NonAssoc
  | Ty.Caret => Assoc.Right
  | Ty.Slash | Ty.Star | Ty.Percent | Ty.Plus | Ty.Minus => Assoc.Left
  | _ => Assoc.NonAssoc

/-- The guard of the operator-popping loop, exactly as written in
src/parse/mod.rs lines 416-426: it breaks out (false) when the stack top is
NOT a left parenthesis — i.e. the `!=` that the adjacent comment says should
keep the loop running — and only reaches the precedence test when the top IS
a left parenthesis. -/
def op_pop_cond (t : Token) (ops : List Token) : Bool :=
  match ops with
  | [] => false
  | o2 :: _ =>
    if o2.ty ≠ Ty.LeftParenthesis then false
    else if prec o2.ty > prec t.ty then true
    else if prec t.ty = prec o2.ty ∧ assoc t.ty = Assoc.Left then true
    else false

/-- The operator-popping loop body (pop while `op_pop_cond`), with the pair
(operator stack, output queue). -/
def pop_ops_for_op (t : Token) : List Token → List Token → List Token × List Token
  | [], output => ([], output)
  | o :: rest, output =>
    if op_pop_cond t (o :: rest) then pop_ops_for_op t rest (o :: output)
    else (o :: rest, output)

/-- Pop operators into the output queue until the stack is empty or its top
is a left parenthesis (the comma and right-parenthesis loops of
src/parse/mod.rs lines 436-448 and 457-472). -/
def pop_until_lparen : List Token → List Token → List Token × List Token
  | [], output => ([], output)
  | o :: rest, output =>
    if o.ty ≠ Ty.LeftParenthesis then pop_until_lparen rest (o :: output)
    else (o :: rest, output)

/-- Handling of a right-parenthesis token (src/parse/mod.rs lines 455-488):
pop to the matching opener, discard it (or `todo!()` — modelled as `none` —
when there is none), then pop a function identifier if
`MathFunc::is_func(t.position.get_text())` holds for `t`, which here is the
`)` token itself, exactly as in the source.  Returns the new
(operator stack, output queue), or `none` for the panic. -/
def handle_rparen (t : Token) (ops output : List Token) :
    Option (List Token × List Token) :=
  match pop_until_lparen ops output with
  | (ops', output') =>
    match ops' with
    | [] => none
    | o :: rest =>
      if o.ty = Ty.LeftParenthesis then
        match rest with
        | f :: rest' =>
          if f.ty = Ty.Identifier ∧ MathFunc.is_func t.text then
            some (rest', f :: output')
          else some (rest, output')
        | [] => some (rest, output')
      else none

/-- The end-of-input drain (src/parse/mod.rs lines 499-508): pop the
remaining operators into the output queue; a leftover left parenthesis is
`todo!("mismatched parenthesis")`, modelled as `none`. -/
def drain_ops : List Token → List Token → Option (List Token)
  | [], output => some output
  | t :: rest, output =>
    if t.ty = Ty.LeftParenthesis then none
    else drain_ops rest (t :: output)

/-- The token-consuming loop of `parse_expression` (src/parse/mod.rs lines
386-495).  `fuel` only bounds the iteration count: every iteration consumes
exactly one token from the state (pushbacks happen only on break), so the
caller's `st.size + 1` is never exhausted. -/
def shuntF (terminate : Token → Terminate) :
    Nat → ParserState → List Token → List Token →
    ParserState × PRes (List Token × List Token)
  | 0, st, _, _ => (st, PRes.nofuel)
  | fuel + 1, st, output, ops =>
    match get_token st with
    | (st', PRes.some t) =>
      match terminate t with
      | Terminate.Yes true => (st', PRes.some (output, ops))
      | Terminate.Yes false => (push_buffer st' t, PRes.some (output, ops))
      | Terminate.No =>
        match t.ty with
        | Ty.NumberLiteral _ => shuntF terminate fuel st' (t :: output) ops
        | Ty.Identifier =>
          if MathFunc.is_func t.text then shuntF terminate fuel st' output (t :: ops)
          else shuntF terminate fuel st' (t :: output) ops
        | Ty.Plus | Ty.Minus | Ty.Star | Ty.Slash | Ty.Caret | Ty.Percent =>
          match pop_ops_for_op t ops output with
          | (ops', output') => shuntF terminate fuel st' output' (t :: ops')
        | Ty.Comma =>
          match pop_until_lparen ops output with
          | (ops', output') => shuntF terminate fuel st' output' ops'
        | Ty.LeftParenthesis => shuntF terminate fuel st' output (t :: ops)
        | Ty.RightParenthesis =>
          match handle_rparen t ops output with
          | some (ops', output') => shuntF terminate fuel st' output' ops'
          | none => (st', PRes.panic)
        | _ => (push_buffer st' t, PRes.some (output, ops))
    | (st', _) => (st', PRes.some (output, ops))

/-- `Expression::construct` (src/parse/mod.rs lines 591-637), consuming the
output queue from its end (the list head here).  `none` models the panics:
`iter.pop().unwrap()` on an empty queue, the `todo!()` for a comma, and the
`unreachable!()` catch-all.  `fuel` decreases by exactly 1 per call while the
list shrinks by at least 1, so starting fuel = list length keeps the 0-fuel
arm reachable only with an empty list — where `none` is the correct
(`unwrap` panic) answer anyway.  NOTE the `Ty.Slash` arm builds `Sub`, not
`Div`, exactly as the source does at line 618. -/
def constructF : Nat → List Token → Option (Expression × List Token)
  | 0, _ => none
  | _ + 1, [] => none
  | fuel + 1, t :: rest =>
    match t.ty with
    | Ty.NumberLiteral n => some (Expression.Lit n, rest)
    | Ty.Identifier =>
      match MathFunc.fromStr t.text with
      | some f =>
        match constructF fuel rest with
        | some (e, r) => some (Expression.Call f e, r)
        | none => none
      | none => some (Expression.VarOrConst t.text, rest)
    | Ty.Plus =>
      match constructF fuel rest with
      | some (e1, r1) =>
        match constructF fuel r1 with
        | some (e2, r2) => some (Expression.Add e1 e2, r2)
        | none => none
      | none => none
    | Ty.Minus =>
      match constructF fuel rest with
      | some (e1, r1) =>
        match constructF fuel r1 with
        | some (e2, r2) => some (Expression.Sub e1 e2, r2)
        | none => none
      | none => none
    | Ty.Star =>
      match constructF fuel rest with
      | some (e1, r1) =>
        match constructF fuel r1 with
        | some (e2, r2) => some (Expression.Mul e1 e2, r2)
        | none => none
      | none => none
    | Ty.Slash =>
      match constructF fuel rest with
      | some (e1, r1) =>
        match constructF fuel r1 with
        | some (e2, r2) => some (Expression.Sub e1 e2, r2)
        | none => none
      | none => none
    | Ty.Caret =>
      match constructF fuel rest with
      | some (e1, r1) =>
        match constructF fuel r1 with
        | some (e2, r2) => some (Expression.Pow e1 e2, r2)
        | none => none
      | none => none
    | Ty.Percent =>
      match constructF fuel rest with
      | some (e1, r1) =>
        match constructF fuel r1 with
        | some (e2, r2) => some (Expression.Mod e1 e2, r2)
        | none => none
      | none => none
    | Ty.Comma => none
    | Ty.RightParenthesis => constructF fuel rest
    | Ty.LeftParenthesis => constructF fuel rest
    | _ => none

/-- `Expression::construct` entry point; see `constructF` for the fuel
argument. -/
def Expression.construct (l : List Token) : Option (Expression × List Token) :=
  constructF l.length l

/-- `Parser::parse_expression` (src/parse/mod.rs lines 350-520): run the
shunting-yard loop, drain the operator stack, build the tree from the end of
the output queue, and append the unconsumed queue tail to the pushback
buffer (`self.buffer.append(&mut output_queue)`). -/
def parse_expression (terminate : Token → Terminate) (st : ParserState) :
    ParserState × PRes Expression :=
  match shuntF terminate (st.size + 1) st [] [] with
  | (st', PRes.some (output, ops)) =>
    match drain_ops ops output with
    | none => (st', PRes.panic)
    | some output' =>
      match Expression.construct output' with
      | none => (st', PRes.panic)
      | some (e, leftover) =>
        ({ st' with buffer := leftover ++ st'.buffer }, PRes.some e)
  | (st', PRes.err e) => (st', PRes.err e)
  | (st', PRes.done) => (st', PRes.done)
  | (st', PRes.panic) => (st', PRes.panic)
  | (st', PRes.nofuel) => (st', PRes.nofuel)

/- ------------------------------------------------------------------
   The recursive-descent song grammar (src/parse/mod.rs).
   ------------------------------------------------------------------ -/

/-- The duration-expression terminator of `parse_song` (src/parse/mod.rs
lines 94-102): the token whose text is `s` ends the expression and is
discarded. -/
def song_dur_term (t : Token) : Terminate :=
  if t.text = "s" then Terminate.Yes true else Terminate.No

/-- The frequency-expression terminator of `parse_source` (src/parse/mod.rs
lines 178-186): a token whose text is `Hz` or `hz` ends the expression and is
discarded. -/
def freq_term (t : Token) : Terminate :=
  if t.text = "Hz" ∨ t.text = "hz" then Terminate.Yes true else Terminate.No

/-- `Parser::parse_chan` (src/parse/mod.rs lines 258-268): `on` followed by
an integer literal (`Channels::One`) or `*` (`Channels::All`). -/
def parse_chan (st : ParserState) : ParserState × PRes Channels :=
  pstep (eat st Ty.OnKw) fun _ st =>
  pstep (get_token st) fun t st =>
  match t.ty with
  | Ty.NumberLiteral (Number.Integer i) => (st, PRes.some (Channels.One i))
  | Ty.Star => (st, PRes.some Channels.All)
  | ty => (st, PRes.err (ParserError.Unexpected ty))

/-- `Parser::parse_vol` (src/parse/mod.rs lines 270-274): `@` followed by an
unterminated expression. -/
def parse_vol (st : ParserState) : ParserState × PRes Expression :=
  pstep (eat st Ty.AtSign) fun _ st =>
  parse_expression (fun _ => Terminate.No) st

/-- `Parser::parse_time_unit` (src/parse/mod.rs lines 276-295): an identifier
naming a unit, as a scale to seconds; an unknown identifier is pushed back. -/
def parse_time_unit (st : ParserState) : ParserState × PRes ℚ :=
  pstep (eat st Ty.Identifier) fun t st =>
  if t.text = "h" then (st, PRes.some 3600)
  else if t.text = "m" then (st, PRes.some 60)
  else if t.text = "s" then (st, PRes.some 1)
  else if t.text = "ms" then (st, PRes.some (1 / 1000))
  else if t.text = "ns" then (st, PRes.some (1 / 1000000000))
  else (push_buffer st t, PRes.err (ParserError.Unexpected t.ty))

/-- The end-bound half of `Parser::parse_timeframe` (src/parse/mod.rs lines
324-345): `get_token().to_res_opt()?` — end of input or a non-number (pushed
back) defaults the end bound to 1; a number optionally scaled by a unit and
divided by the parent length otherwise. -/
def parse_timeframe_end (parent_len_s : ℚ) (start : ℚ) (st : ParserState) :
    ParserState × PRes (ℚ × ℚ) :=
  match get_token st with
  | (st1, PRes.some t) =>
    match t.ty with
    | Ty.NumberLiteral n =>
      match parse_time_unit st1 with
      | (st2, PRes.some u) => (st2, PRes.some (start, (n.toRat * u) / parent_len_s))
      | (st2, PRes.panic) => (st2, PRes.panic)
      | (st2, PRes.nofuel) => (st2, PRes.nofuel)
      | (st2, _) => (st2, PRes.some (start, n.toRat))
    | _ => (push_buffer st1 t, PRes.some (start, 1))
  | (st1, PRes.done) => (st1, PRes.some (start, 1))
  | (st1, PRes.err e) => (st1, PRes.err e)
  | (st1, PRes.panic) => (st1, PRes.panic)
  | (st1, PRes.nofuel) => (st1, PRes.nofuel)

/-- `Parser::parse_timeframe` (src/parse/mod.rs lines 297-348): an optional
start bound (default 0), a colon, and an optional end bound (default 1).
A failed `parse_time_unit` (its `if let Res::Some(u)` pattern) leaves the
bound unscaled, keeping whatever pushbacks the attempt made. -/
def parse_timeframe (parent_len_s : ℚ) (st : ParserState) :
    ParserState × PRes (ℚ × ℚ) :=
  pstep (get_token st) fun t st =>
  match t.ty with
  | Ty.NumberLiteral n =>
    let k := fun (nv : ℚ) (st : ParserState) =>
      pstep (eat st Ty.Colon) fun _ st => parse_timeframe_end parent_len_s nv st
    match parse_time_unit st with
    | (st1, PRes.some u) => k ((n.toRat * u) / parent_len_s) st1
    | (st1, PRes.panic) => (st1, PRes.panic)
    | (st1, PRes.nofuel) => (st1, PRes.nofuel)
    | (st1, _) => k n.toRat st1
  | Ty.Colon => parse_timeframe_end parent_len_s 0 st
  | ty => (st, PRes.err (ParserError.Unexpected ty))

/-- `Parser::parse_effect` (src/parse/mod.rs lines 239-256): an identifier,
then a timeframe within the parent source, then the name is resolved
(`fade_in`/`fade_out`) — in that order, so the timeframe is consumed even
when the name turns out to be unknown, exactly as in the source. -/
def parse_effect (parent_len_s : ℚ) (st : ParserState) : ParserState × PRes Effect :=
  pstep (eat st Ty.Identifier) fun name_t st =>
  pstep (parse_timeframe parent_len_s st) fun se st =>
  if name_t.text = "fade_in" then
    (st, PRes.some { ty := EffectType.FadeIn, start := se.1, «end» := se.2 })
  else if name_t.text = "fade_out" then
    (st, PRes.some { ty := EffectType.FadeOut, start := se.1, «end» := se.2 })
  else (st, PRes.err (ParserError.Unexpected name_t.ty))

/-- The `while let Res::Some(e) = self.parse_effect(len_s)` loop of
`parse_source` (src/parse/mod.rs lines 219-221): accumulate effects until
`parse_effect` yields `Err` or `Done` (both discarded, ending the loop).
Each successful iteration consumes at least the effect-name identifier and
the timeframe colon, so fuel `st.size + 1` at the call site is never
exhausted on terminating runs. -/
def parse_effects_loop (parent_len_s : ℚ) :
    Nat → ParserState → List Effect → ParserState × PRes (List Effect)
  | 0, st, _ => (st, PRes.nofuel)
  | fuel + 1, st, acc =>
    match parse_effect parent_len_s st with
    | (st', PRes.some e) => parse_effects_loop parent_len_s fuel st' (acc ++ [e])
    | (st', PRes.panic) => (st', PRes.panic)
    | (st', PRes.nofuel) => (st', PRes.nofuel)
    | (st', _) => (st', PRes.some acc)

/-- The waveform-name table of `parse_source` (src/parse/mod.rs lines
193-201).  The Rust inner match is only reached for the six known names; the
catch-all is its `unreachable!()`. -/
def wave_kind : String → PeriodicSource
  | "sin" => PeriodicSource.Sine
  | "sine" => PeriodicSource.Sine
  | "saw" => PeriodicSource.Saw
  | "tri" => PeriodicSource.Triangle
  | "triangle" => PeriodicSource.Triangle
  | "square" => PeriodicSource.Square
  | _ => PeriodicSource.Sine

/-- The tail of `Parser::parse_source` after the `SourceType` has been built
(src/parse/mod.rs lines 208-236): timeframe within the song, `)`, channel
clause, volume clause, optional `{ effects }` block (skipped when the next
token is not `{` — the failed `eat` pushes it back and its error is
discarded), and the final `Source` value. -/
def parse_source_rest (sty : SourceType) (st : ParserState) :
    ParserState × PRes Source :=
  pstep (parse_timeframe st.song_length_s st) fun se st =>
  pstep (eat st Ty.RightParenthesis) fun _ st =>
  pstep (parse_chan st) fun channels st =>
  pstep (parse_vol st) fun volume st =>
  let len_s := (se.2 - se.1) * st.song_length_s
  match eat st Ty.LeftCurlyBraces with
  | (st1, PRes.some _) =>
    match parse_effects_loop len_s (st1.size + 1) st1 [] with
    | (st2, PRes.some effects) =>
      pstep (eat st2 Ty.RightCurlyBraces) fun _ st3 =>
        (st3, PRes.some { ty := sty, start := se.1, «end» := se.2,
                          volume := volume, channels := channels,
                          effects := effects })
    | (st2, PRes.err e) => (st2, PRes.err e)
    | (st2, PRes.done) => (st2, PRes.done)
    | (st2, PRes.panic) => (st2, PRes.panic)
    | (st2, PRes.nofuel) => (st2, PRes.nofuel)
  | (st1, PRes.panic) => (st1, PRes.panic)
  | (st1, PRes.nofuel) => (st1, PRes.nofuel)
  | (st1, _) =>
    (st1, PRes.some { ty := sty, start := se.1, «end» := se.2,
                      volume := volume, channels := channels, effects := [] })

/-- `Parser::parse_source` (src/parse/mod.rs lines 166-237): a waveform-name
identifier, `(`, the frequency expression terminated by `Hz`/`hz`, a comma —
building a `SourceType::Periodic` whose phase is always `Expression::zero()`
(line 192) — then the remainder (`parse_source_rest`). -/
def parse_source (st : ParserState) : ParserState × PRes Source :=
  pstep (eat st Ty.Identifier) fun wave_t st =>
  pstep (eat st Ty.LeftParenthesis) fun _ st =>
  match wave_t.text with
  | "sin" | "sine" | "saw" | "tri" | "triangle" | "square" =>
    pstep (parse_expression freq_term st) fun freq st =>
    pstep (eat st Ty.Comma) fun _ st =>
    parse_source_rest
      (SourceType.Periodic freq Expression.zero (wave_kind wave_t.text)) st
  | _ => (st, PRes.err (ParserError.Unexpected wave_t.ty))

/-- The `while let Some(s) = self.parse_source().to_res_opt()?` loop of
`parse_song` (src/parse/mod.rs lines 112-114): collect sources until `Done`;
an `Err` propagates.  Each successful `parse_source` consumes several tokens
and never pushes back more than it read, so fuel `st.size + 1` is never
exhausted on terminating runs. -/
def parse_sources_loop :
    Nat → ParserState → List Source → ParserState × PRes (List Source)
  | 0, st, _ => (st, PRes.nofuel)
  | fuel + 1, st, acc =>
    match parse_source st with
    | (st', PRes.some s) => parse_sources_loop fuel st' (acc ++ [s])
    | (st', PRes.err e) => (st', PRes.err e)
    | (st', PRes.done) => (st', PRes.some acc)
    | (st', PRes.panic) => (st', PRes.panic)
    | (st', PRes.nofuel) => (st', PRes.nofuel)

/-- `Parser::parse_song` (src/parse/mod.rs lines 80-122): a string-literal
name (else `MissingName`), the duration expression terminated by `s` and
immediately evaluated with no context — `.unwrap()`, a panic on evaluation
failure (line 104) — then the channel clause, which must be `Channels::One`
(an `on *` yields `Channels::All` and falls to the `MissingChannels` arm),
then the source list. -/
def parse_song (M : FloatModel) (st : ParserState) : ParserState × PRes Song :=
  pstep (get_token st) fun t st =>
  match t.ty with
  | Ty.StringLiteral name =>
    pstep (parse_expression song_dur_term st) fun durE st =>
    match Expression.evaluate M none durE with
    | Except.error _ => (st, PRes.panic)
    | Except.ok len =>
      let st := { st with song_length_s := len }
      pstep (parse_chan st) fun ch st =>
      match ch with
      | Channels.One c =>
        let st := { st with song_channels := c }
        match parse_sources_loop (st.size + 1) st [] with
        | (st', PRes.some sources) =>
          (st', PRes.some { name := name, channels := st'.song_channels,
                            length_s := st'.song_length_s, sources := sources })
        | (st', PRes.err e) => (st', PRes.err e)
        | (st', PRes.done) => (st', PRes.done)
        | (st', PRes.panic) => (st', PRes.panic)
        | (st', PRes.nofuel) => (st', PRes.nofuel)
      | _ => (st, PRes.err ParserError.MissingChannels)
  | _ => (st, PRes.err ParserError.MissingName)

/- ------------------------------------------------------------------
   The generation engine (src/gen.rs).
   ------------------------------------------------------------------ -/

/-- f64 truncation toward zero (`f64::trunc`), exact over ℚ. -/
def f64trunc (x : ℚ) : ℚ := if 0 ≤ x then ((⌊x⌋ : ℤ) : ℚ) else ((⌈x⌉ : ℤ) : ℚ)

/-- `f64::fract` (`x - x.trunc()`), exact over ℚ. -/
def f64fract (x : ℚ) : ℚ := x - f64trunc x

/-- The f64 `%` operator (`x - y * (x / y).trunc()`), exact over ℚ for
nonzero `y`. -/
def f64rem (x y : ℚ) : ℚ := x - y * f64trunc (x / y)

/-- `gen::sine` (src/gen.rs line 237): `sin(t * freq * TAU + phase)`; the
transcendental sin and TAU come from the `FloatModel`. -/
def sine (M : FloatModel) (t freq phase : ℚ) : ℚ := M.sinF (t * freq * M.tauV + phase)

/-- `gen::saw` (src/gen.rs line 240). -/
def saw (t freq phase : ℚ) : ℚ := f64fract (t * freq + phase) * 2 - 1

/-- `gen::square` (src/gen.rs lines 243-252). -/
def square (t freq phase : ℚ) : ℚ :=
  let x := t + phase
  let p := 1 / freq
  if f64rem x p < p / 2 then 1 else -1

/-- `gen::triangle` (src/gen.rs line 253). -/
def triangle (t freq phase : ℚ) : ℚ :=
  (|f64fract (t * freq + phase) * 2 - 1| - 1 / 2) * 2

/-- `SourceType::gen` (src/gen.rs lines 120-137): evaluate the phase
expression, then the frequency expression, both in the source-scoped
context, then apply the periodic generator. -/
def SourceType.gen (M : FloatModel) (sty : SourceType) (gi : GenInfo) :
    Except ExpressionError ℚ :=
  let t := gi.t
  let gio := some gi
  match sty with
  | SourceType.Periodic freq phase ty =>
    (Expression.evaluate M gio phase).bind fun phasev =>
    (Expression.evaluate M gio freq).bind fun freqv =>
    Except.ok (match ty with
      | PeriodicSource.Sine => sine M t freqv phasev
      | PeriodicSource.Saw => saw t freqv phasev
      | PeriodicSource.Square => square t freqv phasev
      | PeriodicSource.Triangle => triangle t freqv phasev)

/-- `EffectType::apply` (src/gen.rs lines 147-152): `FadeIn` scales by the
effect-scoped time, `FadeOut` by its complement. -/
def EffectType.apply (et : EffectType) (v : ℚ) (gi : GenInfo) : ℚ :=
  match et with
  | EffectType.FadeIn => v * gi.t
  | EffectType.FadeOut => v * (1 - gi.t)

/-- `Effect::apply` (src/gen.rs lines 163-165). -/
def Effect.apply (e : Effect) (v : ℚ) (gi : GenInfo) : ℚ := EffectType.apply e.ty v gi

/-- `GenInfo::new` (src/gen.rs lines 194-199): scope renormalization — remap
the parent-scope time into the child window `[start, end]`. -/
def GenInfo.new (parent : GenInfo) (start stop : ℚ) : GenInfo :=
  { channel := parent.channel, t := (parent.t - start) / (stop - start) }

/-- `Source::gen` (src/gen.rs lines 168-181): waveform value, then each
effect whose source-scoped window contains `t` applied in declared order
with an effect-scoped context, then the volume expression (source-scoped). -/
def Source.gen (M : FloatModel) (src : Source) (gi : GenInfo) :
    Except ExpressionError ℚ :=
  (SourceType.gen M src.ty gi).bind fun v0 =>
  let v := src.effects.foldl
    (fun v e =>
      if e.start ≤ gi.t ∧ gi.t ≤ e.«end» then
        Effect.apply e v (GenInfo.new gi e.start e.«end»)
      else v) v0
  (Expression.evaluate M (some gi) src.volume).bind fun vol =>
  Except.ok (v * vol)

/-- `gen::mix` (src/gen.rs line 219): plain summation. -/
def mix (v1 v2 : ℚ) : ℚ := v1 + v2

/-- The source loop of `gen::get_sample` (src/gen.rs lines 202-217): a source
whose channel selector does not match, or whose song-scoped window does not
contain `t`, is skipped entirely (`continue`) — none of its expressions are
evaluated; otherwise its contribution is generated under the renormalized
context and mixed in. -/
def get_sample_loop (M : FloatModel) (gi : GenInfo) :
    List Source → ℚ → Except ExpressionError ℚ
  | [], mixed => Except.ok mixed
  | src :: rest, mixed =>
    if ¬ src.channels.has gi.channel ∨ ¬ (src.start ≤ gi.t ∧ gi.t ≤ src.«end») then
      get_sample_loop M gi rest mixed
    else
      (Source.gen M src (GenInfo.new gi src.start src.«end»)).bind fun v =>
      get_sample_loop M gi rest (mix mixed v)

/-- `gen::get_sample` (src/gen.rs lines 202-217). -/
def get_sample (M : FloatModel) (s : Song) (gi : GenInfo) :
    Except ExpressionError ℚ :=
  get_sample_loop M gi s.sources 0

/- ------------------------------------------------------------------
   The tokenizer's numeric-literal suffix consumer
   (src/parse/tokenizer.rs lines 683-718).
   ------------------------------------------------------------------ -/

namespace Tokenizer

/-- Tokenizer token kinds (src/parse/tokenizer.rs `TokenType`); only the
numeric-literal variants `get_num_like` touches are embedded. -/
inductive TokenType where
  | IntLiteral (v : Nat)
  | FloatLiteral (v : ℚ)
  | DurationLiteral (v : ℚ)
  | FreqLiteral (v : ℚ)
deriving DecidableEq

/-- The numeric value `get_num_like` extracts from its argument
(`IntLiteral(v) => v as f64, FloatLiteral(v) => v`); the remaining variants
are its `unreachable!()`. -/
def num_val : TokenType → ℚ
  | TokenType.IntLiteral v => (v : ℚ)
  | TokenType.FloatLiteral v => v
  | _ => 0

/-- Tokenizer character-stream state: the pushback buffer (head = top of the
Rust `Vec`) and the remaining input characters.  The position bookkeeping of
the Rust struct is diagnostics-only and omitted. -/
structure TokState where
  buffer : List Char
  input : List Char
deriving DecidableEq

/-- `Tokenizer::get_char` (src/parse/tokenizer.rs lines 234-256) without the
position bookkeeping. -/
def get_char (st : TokState) : Option Char × TokState :=
  match st.buffer with
  | c :: rest => (some c, { st with buffer := rest })
  | [] =>
    match st.input with
    | c :: rest => (some c, { st with input := rest })
    | [] => (none, st)

/-- `Tokenizer::add_buffer` (src/parse/tokenizer.rs lines 258-273): push a
consumed character back (a `None` is ignored). -/
def add_buffer (c : Option Char) (st : TokState) : TokState :=
  match c with
  | none => st
  | some c => { st with buffer := c :: st.buffer }

/-- `Tokenizer::get_num_like` (src/parse/tokenizer.rs lines 683-718), the
unit-suffix consumer: `s` → duration `v`; `m` then `s` → duration
`v * 0.0001`; `m` otherwise → duration `v * 1000` (pushing the lookahead
back); `h` then `z` → frequency `v * 0.0001`; `h` otherwise → duration
`v * 1000` (pushing `h` and the lookahead back); anything else → the
literal unchanged, lookahead pushed back.  The decimal constants are the
exact rationals the source text denotes. -/
def get_num_like (num : TokenType) (st : TokState) : TokState × TokenType :=
  let v := num_val num
  match get_char st with
  | (c0, st') =>
    if c0 = some 's' then (st', TokenType.DurationLiteral v)
    else if c0 = some 'm' then
      match get_char st' with
      | (c1, st2) =>
        if c1 = some 's' then (st2, TokenType.DurationLiteral (v * (1 / 10000)))
        else (add_buffer c1 st2, TokenType.DurationLiteral (v * 1000))
    else if c0 = some 'h' then
      match get_char st' with
      | (c1, st2) =>
        if c1 = some 'z' then (st2, TokenType.FreqLiteral (v * (1 / 10000)))
        else (add_buffer c1 (add_buffer (some 'h') st2),
              TokenType.DurationLiteral (v * 1000))
    else (add_buffer c0 st', num)

end Tokenizer

/- ------------------------------------------------------------------
   Concrete instances used by witnesses and counterexamples.
   ------------------------------------------------------------------ -/

/-- A concrete `FloatModel` instance for closed statements.  Its `powf` is
exact integer power (which agrees with `f64::powf` on the small integer
inputs the examples use) and its `call` table is the identity (which agrees
with `f64::sin` at 0). -/
def M0 : FloatModel where
  call := fun _ x => x
  powf := fun a b => a ^ b.num.toNat
  modf := fun _ _ => 0
  sinF := fun _ => 0
  piV := 0
  eV := 0
  tauV := 0

/-- A fresh parser state over a given token stream (`Parser::new`, with the
NaN initial length modelled as 0; see `ParserState`). -/
def init_state (l : List Token) : ParserState :=
  { song_channels := 0, song_length_s := 0, buffer := [], input := l }

/-- Run the expression sub-parser on a token stream with no terminator, as
`parse_vol` does, and return the outcome. -/
def run_expr (toks : List Token) : PRes Expression :=
  (parse_expression (fun _ => Terminate.No) (init_state toks)).2

/-- `run_expr` followed by evaluation with no generation context; `none`
when parsing did not yield an expression. -/
def run_expr_eval (M : FloatModel) (toks : List Token) :
    Option (Except ExpressionError ℚ) :=
  match run_expr toks with
  | PRes.some e => some (Expression.evaluate M none e)
  | _ => none

/-- An integer number-literal token with its source text. -/
def tok_num (n : Nat) : Token :=
  { ty := Ty.NumberLiteral (Number.Integer n), text := toString n }

/-- The `+` token. -/
def tok_plus : Token := { ty := Ty.Plus, text := "+" }

/-- The `-` token. -/
def tok_minus : Token := { ty := Ty.Minus, text := "-" }

/-- The `*` token (multiplication and the `on *` channel clause share it). -/
def tok_star : Token := { ty := Ty.Star, text := "*" }

/-- The `/` token. -/
def tok_slash : Token := { ty := Ty.Slash, text := "/" }

/-- The `^` token. -/
def tok_caret : Token := { ty := Ty.Caret, text := "^" }

/-- The `(` token. -/
def tok_lp : Token := { ty := Ty.LeftParenthesis, text := "(" }

/-- The `)` token. -/
def tok_rp : Token := { ty := Ty.RightParenthesis, text := ")" }

/-- The `:` token. -/
def tok_colon : Token := { ty := Ty.Colon, text := ":" }

/-- The `,` token. -/
def tok_comma : Token := { ty := Ty.Comma, text := "," }

/-- The `@` token. -/
def tok_at : Token := { ty := Ty.AtSign, text := "@" }

/-- The `on` keyword token. -/
def tok_on : Token := { ty := Ty.OnKw, text := "on" }

/-- The identifier token `sin`. -/
def tok_sin : Token := { ty := Ty.Identifier, text := "sin" }

/-- The identifier token `s` (the duration-expression terminator). -/
def tok_s : Token := { ty := Ty.Identifier, text := "s" }

/-- The identifier token `hz` (the frequency-expression terminator). -/
def tok_hz : Token := { ty := Ty.Identifier, text := "hz" }

/-- A string-literal token (the song name). -/
def tok_name : Token := { ty := Ty.StringLiteral (r"x"), text := "x" }

/-- Token stream of the expression text `6 / 3`. -/
def toks_div : List Token := [tok_num 6, tok_slash, tok_num 3]

/-- Token stream of the expression text `2 + 3 * 4`. -/
def toks_addmul : List Token := [tok_num 2, tok_plus, tok_num 3, tok_star, tok_num 4]

/-- Token stream of the expression text `2 * 3 + 4`. -/
def toks_muladd : List Token := [tok_num 2, tok_star, tok_num 3, tok_plus, tok_num 4]

/-- Token stream of the expression text `10 - 3 - 2`. -/
def toks_subsub : List Token :=
  [tok_num 10, tok_minus, tok_num 3, tok_minus, tok_num 2]

/-- Token stream of the expression text `2 ^ 3 ^ 2`. -/
def toks_powpow : List Token :=
  [tok_num 2, tok_caret, tok_num 3, tok_caret, tok_num 2]

/-- Token stream of the expression text `(2 + 3) * 4`. -/
def toks_parenmul : List Token :=
  [tok_lp, tok_num 2, tok_plus, tok_num 3, tok_rp, tok_star, tok_num 4]

/-- Token stream of the expression text `sin(0)`. -/
def toks_sin0 : List Token := [tok_sin, tok_lp, tok_num 0, tok_rp]

/-- Token stream of the expression text `10 - 3`. -/
def toks_sub : List Token := [tok_num 10, tok_minus, tok_num 3]

/-- Token stream of the expression text `2 )` — a closing parenthesis with no
matching opener. -/
def toks_unmatched_close : List Token := [tok_num 2, tok_rp]

/-- Token stream of the expression text `( 2` — input ending with an
unmatched open parenthesis. -/
def toks_unmatched_open : List Token := [tok_lp, tok_num 2]

/-- Token stream of the song text `"x" 1 s on *`. -/
def toks_song_star : List Token := [tok_name, tok_num 1, tok_s, tok_on, tok_star]

/-- Token stream of the source text `sin(440 hz, 0:1) on * @ 1`. -/
def toks_source : List Token :=
  [tok_sin, tok_lp, tok_num 440, tok_hz, tok_comma, tok_num 0, tok_colon,
   tok_num 1, tok_rp, tok_on, tok_star, tok_at, tok_num 1]

/-- A parser state positioned at `toks_source` inside a 1-second song. -/
def st_source : ParserState :=
  { song_channels := 2, song_length_s := 1, buffer := [], input := toks_source }

/-- The `Source` value `parse_source` produces from `st_source`. -/
def src_sin440 : Source :=
  { ty := SourceType.Periodic (Expression.Lit (Number.Integer 440))
      Expression.zero PeriodicSource.Sine,
    start := 0, «end» := 1,
    volume := Expression.Lit (Number.Integer 1),
    channels := Channels.All, effects := [] }

/-- A source on channel 0 only, with expressions that would fail to
evaluate — exercising that a skipped source's expressions are never
evaluated (claim C7). -/
def src_ch0_bad : Source :=
  { ty := SourceType.Periodic (Expression.VarOrConst (r"nosuch"))
      (Expression.VarOrConst (r"nosuch")) PeriodicSource.Sine,
    start := 0, «end» := 1,
    volume := Expression.VarOrConst (r"nosuch"),
    channels := Channels.One 0, effects := [] }

/-- A 2-channel, 1-second song holding only `src_ch0_bad`. -/
def song_ch0 : Song :=
  { name := "x", channels := 2, length_s := 1, sources := [src_ch0_bad] }

/-- The same song with the source removed. -/
def song_empty : Song :=
  { name := "x", channels := 2, length_s := 1, sources := [] }

/- ------------------------------------------------------------------
   Helper lemmas.
   ------------------------------------------------------------------ -/

/-- An expression referencing only the context-free constants evaluates
successfully with no generation context. -/
theorem eval_ok_of_const_names (M : FloatModel) :
    ∀ e : Expression, Expression.names_in const_names e = true →
      ∃ v, Expression.evaluate M none e = Except.ok v := by
  intro e
  induction e with
  | Add b a ihb iha | Sub b a ihb iha | Mul b a ihb iha
  | Div b a ihb iha | Pow b a ihb iha | Mod b a ihb iha =>
    intro h
    simp only [Expression.names_in, Bool.and_eq_true] at h
    obtain ⟨va, hva⟩ := iha h.2
    obtain ⟨vb, hvb⟩ := ihb h.1
    simp only [Expression.evaluate, hva, hvb, Except.bind]
    exact ⟨_, rfl⟩
  | Call f arg ih =>
    intro h
    simp only [Expression.names_in] at h
    obtain ⟨v, hv⟩ := ih h
    simp only [Expression.evaluate, hv, Except.bind]
    exact ⟨_, rfl⟩
  | VarOrConst name =>
    intro h
    simp only [Expression.names_in, const_names, List.mem_cons,
      List.not_mem_nil, or_false, decide_eq_true_eq] at h
    rcases h with h | h | h
    · subst h; exact ⟨M.piV, by simp [Expression.evaluate]⟩
    · subst h; exact ⟨M.piV, by simp [Expression.evaluate]⟩
    · subst h; exact ⟨M.eV, by simp [Expression.evaluate]⟩
  | Lit n => exact fun _ => ⟨_, rfl⟩

/-- A recognized name that is not context-dependent is one of the constants. -/
theorem names_in_const_of_not_refs :
    ∀ e : Expression, Expression.names_in known_names e = true →
      Expression.refs_context e = false →
      Expression.names_in const_names e = true := by
  intro e
  induction e with
  | Add b a ihb iha | Sub b a ihb iha | Mul b a ihb iha
  | Div b a ihb iha | Pow b a ihb iha | Mod b a ihb iha =>
    intro h1 h2
    simp only [Expression.names_in, Bool.and_eq_true] at h1 ⊢
    simp only [Expression.refs_context, Bool.or_eq_false_iff] at h2
    exact ⟨ihb h1.1 h2.1, iha h1.2 h2.2⟩
  | Call f arg ih =>
    intro h1 h2
    simp only [Expression.names_in] at h1 ⊢
    simp only [Expression.refs_context] at h2
    exact ih h1 h2
  | VarOrConst name =>
    intro h1 h2
    simp only [Expression.names_in, known_names, const_names, List.mem_cons,
      List.not_mem_nil, or_false, decide_eq_true_eq] at h1 ⊢
    simp only [Expression.refs_context, decide_eq_false_iff_not, not_or] at h2
    rcases h1 with h | h | h | h | h | h
    · exact Or.inl h
    · exact Or.inr (Or.inl h)
    · exact Or.inr (Or.inr h)
    · exact absurd h h2.1
    · exact absurd h h2.2.1
    · exact absurd h h2.2.2
  | Lit n => exact fun _ _ => rfl

/-- An expression all of whose names are recognized and which references a
context-dependent variable evaluates, with no context, to the `NoGenInfo`
failure. -/
theorem eval_nogeninfo_of_refs (M : FloatModel) :
    ∀ e : Expression, Expression.names_in known_names e = true →
      Expression.refs_context e = true →
      Expression.evaluate M none e = Except.error ExpressionError.NoGenInfo := by
  intro e
  induction e with
  | Add b a ihb iha | Sub b a ihb iha | Mul b a ihb iha
  | Div b a ihb iha | Pow b a ihb iha | Mod b a ihb iha =>
    intro h1 h2
    simp only [Expression.names_in, Bool.and_eq_true] at h1
    simp only [Expression.refs_context, Bool.or_eq_true] at h2
    by_cases hra : Expression.refs_context a = true
    · have ha := iha h1.2 hra
      simp [Expression.evaluate, ha, Except.bind]
    · have hca := names_in_const_of_not_refs a h1.2 (Bool.not_eq_true _ ▸ hra)
      obtain ⟨va, hva⟩ := eval_ok_of_const_names M a hca
      have hrb : Expression.refs_context b = true := by
        rcases h2 with h | h
        · exact h
        · exact absurd h hra
      have hb := ihb h1.1 hrb
      simp [Expression.evaluate, hva, hb, Except.bind]
  | Call f arg ih =>
    intro h1 h2
    simp only [Expression.names_in] at h1
    simp only [Expression.refs_context] at h2
    have ha := ih h1 h2
    simp [Expression.evaluate, ha, Except.bind]
  | VarOrConst name =>
    intro _ h2
    simp only [Expression.refs_context, decide_eq_true_eq] at h2
    rcases h2 with h | h | h <;> subst h <;> simp [Expression.evaluate]
  | Lit n => intro _ h2; simp [Expression.refs_context] at h2

/-- When the operator stack holds no left parenthesis, the
right-parenthesis pop loop empties it completely. -/
theorem pop_until_lparen_no_lp :
    ∀ ops output : List Token, (∀ o ∈ ops, o.ty ≠ Ty.LeftParenthesis) →
      (pop_until_lparen ops output).1 = [] := by
  intro ops
  induction ops with
  | nil => intro output _; rfl
  | cons o rest ih =>
    intro output h
    have ho := h o (List.mem_cons_self o rest)
    simp only [pop_until_lparen, if_pos ho]
    exact ih _ fun x hx => h x (List.mem_cons_of_mem o hx)

/-- A left parenthesis left on the operator stack makes the end-of-input
drain hit its `todo!("mismatched parenthesis")`. -/
theorem drain_ops_none_of_lp :
    ∀ ops output : List Token, (∃ o ∈ ops, o.ty = Ty.LeftParenthesis) →
      drain_ops ops output = none := by
  intro ops
  induction ops with
  | nil => intro output h; simp at h
  | cons o rest ih =>
    intro output h
    by_cases ho : o.ty = Ty.LeftParenthesis
    · simp [drain_ops, ho]
    · simp only [drain_ops, if_neg ho]
      rcases h with ⟨x, hx, hxty⟩
      rcases List.mem_cons.mp hx with h1 | h1
      · exact absurd (h1 ▸ hxty) ho
      · exact ih _ ⟨x, h1, hxty⟩

/-- A source that is inactive at the given context (wrong channel or time
outside its window) is skipped by the mixing loop: removing it from the
source list does not change the result at all — in particular none of its
expressions are evaluated. -/
theorem get_sample_loop_skip (M : FloatModel) (gi : GenInfo) (src : Source)
    (h : ¬ src.channels.has gi.channel ∨ ¬ (src.start ≤ gi.t ∧ gi.t ≤ src.«end»)) :
    ∀ (l1 l2 : List Source) (mixed : ℚ),
      get_sample_loop M gi (l1 ++ src :: l2) mixed =
        get_sample_loop M gi (l1 ++ l2) mixed := by
  intro l1
  induction l1 with
  | nil =>
    intro l2 mixed
    simp only [List.nil_append, get_sample_loop]
    rw [if_pos h]
  | cons a rest ih =>
    intro l2 mixed
    simp only [List.cons_append, get_sample_loop]
    by_cases ha : ¬ a.channels.has gi.channel ∨ ¬ (a.start ≤ gi.t ∧ gi.t ≤ a.«end»)
    · rw [if_pos ha, if_pos ha]
      exact ih l2 mixed
    · rw [if_neg ha, if_neg ha]
      cases Source.gen M a (GenInfo.new gi a.start a.«end») with
      | error e => rfl
      | ok v => simp only [Except.bind]; exact ih l2 (mix mixed v)

/-- Whatever the input, a `Source` successfully produced by
`parse_source_rest` carries exactly the `SourceType` it was given. -/
theorem parse_source_rest_ty (sty : SourceType) (st : ParserState) (src : Source)
    (h : (parse_source_rest sty st).2 = PRes.some src) : src.ty = sty := by
  unfold parse_source_rest at h
  simp only [pstep] at h
  repeat' split at h
  all_goals try simp_all
  all_goals subst h
  all_goals rfl

/- ------------------------------------------------------------------
   Claim theorems.
   ------------------------------------------------------------------ -/

/-- C1: the claim that parsing `a / b` produces a `Div` node evaluating to
the quotient is false on the code: `Expression::construct` maps a `Slash`
token to a `Sub` node (src/parse/mod.rs line 618).  Parsing `6 / 3` yields
`Sub(Lit 3, Lit 6)` which evaluates — with or without a generation
context — to 6 - 3 = 3, while the quotient 6 / 3 is 2 ≠ 3. -/
theorem c1_slash_builds_sub :
    run_expr toks_div = PRes.some (Expression.Sub (Expression.Lit
      (Number.Integer 3)) (Expression.Lit (Number.Integer 6))) ∧
    run_expr_eval M0 toks_div = some (Except.ok 3) ∧
    Expression.evaluate M0 (some { channel := 0, t := 0 })
      (Expression.Sub (Expression.Lit (Number.Integer 3))
        (Expression.Lit (Number.Integer 6))) = Except.ok 3 ∧
    (3 : ℚ) ≠ 6 / 3 := by
  have h : run_expr toks_div = PRes.some (Expression.Sub (Expression.Lit
      (Number.Integer 3)) (Expression.Lit (Number.Integer 6))) := by decide
  refine ⟨h, ?_, ?_, by norm_num⟩
  · simp [run_expr_eval, h, Expression.evaluate, Number.toRat, Except.bind]
    norm_num
  · simp [Expression.evaluate, Number.toRat, Except.bind]
    norm_num

/-- C2: the claim that reading a binary operator pops higher-or-equal
precedence operators (so same-precedence chains group left-to-right) is
false on the code: the pop-loop guard (src/parse/mod.rs line 421) breaks
whenever the stack top is NOT a left parenthesis — the inverse of the
algorithm its comment quotes — so `op_pop_cond` is constantly false and no
operator is ever popped.  Chains therefore group right-to-left:
`2 * 3 + 4` parses as 2 * (3 + 4) = 14 (not 10) and `10 - 3 - 2` parses as
10 - (3 - 2) = 9 (not the claimed 5). -/
theorem c2_operator_pop_never_fires :
    (∀ (t : Token) (ops : List Token), op_pop_cond t ops = false) ∧
    run_expr_eval M0 toks_muladd = some (Except.ok 14) ∧ (14 : ℚ) ≠ 10 ∧
    run_expr_eval M0 toks_subsub = some (Except.ok 9) ∧ (9 : ℚ) ≠ 5 := by
  refine ⟨?_, ?_, by norm_num, ?_, by norm_num⟩
  · intro t ops
    cases ops with
    | nil => rfl
    | cons o rest =>
      simp only [op_pop_cond]
      by_cases ho : o.ty = Ty.LeftParenthesis
      · rw [if_neg (by simp [ho])]
        rw [ho]
        cases t.ty <;> simp [prec, assoc]
      · rw [if_pos (by simp [ho])]
  · have h : run_expr toks_muladd = PRes.some (Expression.Mul (Expression.Add
        (Expression.Lit (Number.Integer 4)) (Expression.Lit (Number.Integer 3)))
        (Expression.Lit (Number.Integer 2))) := by decide
    simp [run_expr_eval, h, Expression.evaluate, Number.toRat, Except.bind]
    norm_num
  · have h : run_expr toks_subsub = PRes.some (Expression.Sub (Expression.Sub
        (Expression.Lit (Number.Integer 2)) (Expression.Lit (Number.Integer 3)))
        (Expression.Lit (Number.Integer 10))) := by decide
    simp [run_expr_eval, h, Expression.evaluate, Number.toRat, Except.bind]
    norm_num

/-- C3 counterexample: the claim that a parenthesis mismatch is a defined
failure value and not a panic is false on the code — both mismatch
directions hit a `todo!()` panic (src/parse/mod.rs lines 477 and 504):
parsing `2 )` and `( 2` each end in the panic outcome, not a `Res::Err`. -/
theorem c3_counterexample_mismatch_panics :
    (parse_expression (fun _ => Terminate.No)
      (init_state toks_unmatched_close)).2 = PRes.panic ∧
    (parse_expression (fun _ => Terminate.No)
      (init_state toks_unmatched_open)).2 = PRes.panic := by
  constructor <;> decide

/-- C3 (amended): a closing parenthesis handled with no opener anywhere on
the operator stack always reaches the `todo!()` panic, and input ending with
an unmatched opener on the stack always panics in the drain — parenthesis
mismatch is a panic, not a defined failure value; `2 )` and `( 2` are
concrete instances. -/
theorem c3_amended_mismatch_is_panic :
    (∀ (t : Token) (ops output : List Token),
      (∀ o ∈ ops, o.ty ≠ Ty.LeftParenthesis) →
        handle_rparen t ops output = none) ∧
    (∀ ops output : List Token,
      (∃ o ∈ ops, o.ty = Ty.LeftParenthesis) →
        drain_ops ops output = none) ∧
    (parse_expression (fun _ => Terminate.No)
      (init_state toks_unmatched_close)).2 = PRes.panic ∧
    (parse_expression (fun _ => Terminate.No)
      (init_state toks_unmatched_open)).2 = PRes.panic := by
  refine ⟨?_, drain_ops_none_of_lp, by decide, by decide⟩
  intro t ops output h
  simp only [handle_rparen]
  rw [show pop_until_lparen ops output =
      ((pop_until_lparen ops output).1, (pop_until_lparen ops output).2) from rfl]
  rw [pop_until_lparen_no_lp ops output h]

/-- Witness for C3's amended theorem at a concrete stack. -/
theorem c3_amended_witness :
    handle_rparen tok_rp [tok_plus] [] = none ∧
    drain_ops [tok_lp] [] = none :=
  ⟨c3_amended_mismatch_is_panic.1 tok_rp [tok_plus] [] (by decide),
   c3_amended_mismatch_is_panic.2.1 [tok_lp] [] ⟨tok_lp, by decide, by decide⟩⟩

/-- C4: the five spec examples hold on the code under any float model whose
`powf` and `sin` agree with f64 at the touched points (they do: powf is
exact on these small integers and sin(0.0) = 0.0): `2 + 3 * 4` ↦ 14,
`2 ^ 3 ^ 2` ↦ 512 (right-associated), `(2 + 3) * 4` ↦ 20, `sin(0)` ↦ 0,
and `10 - 3` ↦ 7 (not -7). -/
theorem c4_shunting_yard_examples (M : FloatModel)
    (hpow32 : M.powf 3 2 = 9) (hpow29 : M.powf 2 9 = 512)
    (hsin : M.call MathFunc.Sin 0 = 0) :
    run_expr_eval M toks_addmul = some (Except.ok 14) ∧
    run_expr_eval M toks_powpow = some (Except.ok 512) ∧
    run_expr_eval M toks_parenmul = some (Except.ok 20) ∧
    run_expr_eval M toks_sin0 = some (Except.ok 0) ∧
    run_expr_eval M toks_sub = some (Except.ok 7) := by
  refine ⟨?_, ?_, ?_, ?_, ?_⟩
  · have h : run_expr toks_addmul = PRes.some (Expression.Add (Expression.Mul
        (Expression.Lit (Number.Integer 4)) (Expression.Lit (Number.Integer 3)))
        (Expression.Lit (Number.Integer 2))) := by decide
    simp [run_expr_eval, h, Expression.evaluate, Number.toRat, Except.bind]
    norm_num
  · have h : run_expr toks_powpow = PRes.some (Expression.Pow (Expression.Pow
        (Expression.Lit (Number.Integer 2)) (Expression.Lit (Number.Integer 3)))
        (Expression.Lit (Number.Integer 2))) := by decide
    simp only [run_expr_eval, h, Expression.evaluate, Number.toRat, Except.bind]
    norm_num [hpow32, hpow29]
  · have h : run_expr toks_parenmul = PRes.some (Expression.Mul
        (Expression.Lit (Number.Integer 4)) (Expression.Add
        (Expression.Lit (Number.Integer 3)) (Expression.Lit (Number.Integer 2)))) := by
      decide
    simp [run_expr_eval, h, Expression.evaluate, Number.toRat, Except.bind]
    norm_num
  · have h : run_expr toks_sin0 = PRes.some (Expression.Call MathFunc.Sin
        (Expression.Lit (Number.Integer 0))) := by decide
    simp only [run_expr_eval, h, Expression.evaluate, Number.toRat, Except.bind]
    norm_num [hsin]
  · have h : run_expr toks_sub = PRes.some (Expression.Sub
        (Expression.Lit (Number.Integer 3)) (Expression.Lit (Number.Integer 10))) := by
      decide
    simp [run_expr_eval, h, Expression.evaluate, Number.toRat, Except.bind]
    norm_num

/-- Witness for C4 at the concrete model `M0`. -/
theorem c4_witness :
    run_expr_eval M0 toks_addmul = some (Except.ok 14) ∧
    run_expr_eval M0 toks_powpow = some (Except.ok 512) ∧
    run_expr_eval M0 toks_parenmul = some (Except.ok 20) ∧
    run_expr_eval M0 toks_sin0 = some (Except.ok 0) ∧
    run_expr_eval M0 toks_sub = some (Except.ok 7) :=
  c4_shunting_yard_examples M0 (by decide) (by decide) (by decide)

/-- C5: with no generation context, an expression whose names are all
recognized and which references `t`/`channel`/`ch` fails with `NoGenInfo`;
an expression referencing only the constants succeeds, with `pi` and `e`
returning the respective constants; and an unrecognized name fails with
`UnknownVar` carrying that name, with or without a context. -/
theorem c5_context_requirements (M : FloatModel) :
    (∀ e : Expression, Expression.names_in known_names e = true →
      Expression.refs_context e = true →
      Expression.evaluate M none e = Except.error ExpressionError.NoGenInfo) ∧
    (∀ e : Expression, Expression.names_in const_names e = true →
      ∃ v, Expression.evaluate M none e = Except.ok v) ∧
    (Expression.evaluate M none (Expression.VarOrConst (r"pi")) =
        Except.ok M.piV ∧
      Expression.evaluate M none (Expression.VarOrConst (r"e")) =
        Except.ok M.eV) ∧
    (∀ (name : String) (gi : Option GenInfo), name ∉ known_names →
      Expression.evaluate M gi (Expression.VarOrConst name) =
        Except.error (ExpressionError.UnknownVar name)) := by
  refine ⟨eval_nogeninfo_of_refs M, eval_ok_of_const_names M,
    ⟨by simp [Expression.evaluate], by simp [Expression.evaluate]⟩, ?_⟩
  intro name gi h
  simp only [known_names, List.mem_cons, List.not_mem_nil, or_false,
    not_or] at h
  obtain ⟨h1, h2, h3, h4, h5, h6⟩ := h
  simp [Expression.evaluate, h1, h2, h3, h4, h5, h6]

/-- Witness for C5 at the variables `t`, `pi` and an unknown name. -/
theorem c5_witness :
    Expression.evaluate M0 none (Expression.VarOrConst (r"t")) =
      Except.error ExpressionError.NoGenInfo ∧
    (∃ v, Expression.evaluate M0 none (Expression.VarOrConst (r"pi")) =
      Except.ok v) ∧
    Expression.evaluate M0 none (Expression.VarOrConst (r"nosuch")) =
      Except.error (ExpressionError.UnknownVar (r"nosuch")) :=
  ⟨(c5_context_requirements M0).1 _ (by decide) (by decide),
   (c5_context_requirements M0).2.1 _ (by decide),
   (c5_context_requirements M0).2.2.2 (r"nosuch") none (by decide)⟩

/-- C6: the tokenizer's suffix consumer turns a numeric body of value v into
a duration of value v on suffix `s`, of value v * 0.0001 on suffix `ms`, and
of value v * 1000 on `m` not continued by `s` (including at end of input) —
exactly the scale factors of src/parse/tokenizer.rs lines 692-701. -/
theorem c6_suffix_scale_factors (num : Tokenizer.TokenType) (cs : List Char)
    (c : Char) (hc : c ≠ 's') :
    (Tokenizer.get_num_like num { buffer := [], input := 's' :: cs }).2 =
      Tokenizer.TokenType.DurationLiteral (Tokenizer.num_val num) ∧
    (Tokenizer.get_num_like num { buffer := [], input := 'm' :: 's' :: cs }).2 =
      Tokenizer.TokenType.DurationLiteral (Tokenizer.num_val num * (1 / 10000)) ∧
    (Tokenizer.get_num_like num { buffer := [], input := 'm' :: c :: cs }).2 =
      Tokenizer.TokenType.DurationLiteral (Tokenizer.num_val num * 1000) ∧
    (Tokenizer.get_num_like num { buffer := [], input := ['m'] }).2 =
      Tokenizer.TokenType.DurationLiteral (Tokenizer.num_val num * 1000) := by
  refine ⟨rfl, rfl, ?_, rfl⟩
  simp only [Tokenizer.get_num_like, Tokenizer.get_char]
  simp [hc]

/-- Witness for C6 at the literal body 5 and lookahead `x`. -/
theorem c6_witness :
    (Tokenizer.get_num_like (Tokenizer.TokenType.IntLiteral 5)
        { buffer := [], input := ['s'] }).2 =
      Tokenizer.TokenType.DurationLiteral
        (Tokenizer.num_val (Tokenizer.TokenType.IntLiteral 5)) ∧
    (Tokenizer.get_num_like (Tokenizer.TokenType.IntLiteral 5)
        { buffer := [], input := ['m', 's'] }).2 =
      Tokenizer.TokenType.DurationLiteral
        (Tokenizer.num_val (Tokenizer.TokenType.IntLiteral 5) * (1 / 10000)) ∧
    (Tokenizer.get_num_like (Tokenizer.TokenType.IntLiteral 5)
        { buffer := [], input := ['m', 'x'] }).2 =
      Tokenizer.TokenType.DurationLiteral
        (Tokenizer.num_val (Tokenizer.TokenType.IntLiteral 5) * 1000) ∧
    (Tokenizer.get_num_like (Tokenizer.TokenType.IntLiteral 5)
        { buffer := [], input := ['m'] }).2 =
      Tokenizer.TokenType.DurationLiteral
        (Tokenizer.num_val (Tokenizer.TokenType.IntLiteral 5) * 1000) :=
  c6_suffix_scale_factors (Tokenizer.TokenType.IntLiteral 5) [] 'x' (by decide)

/-- C7: a source whose channel selector does not match the requested channel,
or whose window does not contain the time, contributes nothing to the mixed
sample — removing it from the song changes nothing, so its frequency, phase
and volume expressions are never evaluated and can never cause a failure;
and a source declared `on 0` never matches a request for channel 1. -/
theorem c7_inactive_source_skipped (M : FloatModel) (nm : String)
    (nch : Nat) (len : ℚ) (l1 l2 : List Source) (src : Source) (gi : GenInfo)
    (h : ¬ src.channels.has gi.channel ∨
      ¬ (src.start ≤ gi.t ∧ gi.t ≤ src.«end»)) :
    get_sample M { name := nm, channels := nch, length_s := len,
                   sources := l1 ++ src :: l2 } gi =
      get_sample M { name := nm, channels := nch, length_s := len,
                     sources := l1 ++ l2 } gi ∧
    Channels.has (Channels.One 0) 1 = false := by
  exact ⟨get_sample_loop_skip M gi src h l1 l2 0, by decide⟩

/-- Witness for C7: an `on 0` source whose every expression is an unknown
variable contributes nothing on channel 1 of a 2-channel song. -/
theorem c7_witness :
    get_sample M0 song_ch0 { channel := 1, t := 1 / 2 } =
      get_sample M0 song_empty { channel := 1, t := 1 / 2 } ∧
    Channels.has (Channels.One 0) 1 = false :=
  c7_inactive_source_skipped M0 (r"x") 2 1 [] [] src_ch0_bad
    { channel := 1, t := 1 / 2 } (Or.inl (by decide))

/-- C8: scope renormalization preserves the normalized-time invariant — for
a window with `start < end` containing the parent time, the remapped time
`(t - start) / (end - start)` computed by `GenInfo::new` lies in [0, 1];
this is the remap used both per-source in `get_sample` and per-effect in
`Source::gen`, each guarded by exactly this containment test. -/
theorem c8_renormalized_time_in_unit_interval (gi : GenInfo) (s e : ℚ)
    (h1 : s < e) (h2 : s ≤ gi.t) (h3 : gi.t ≤ e) :
    0 ≤ (GenInfo.new gi s e).t ∧ (GenInfo.new gi s e).t ≤ 1 := by
  simp only [GenInfo.new]
  constructor
  · exact div_nonneg (by linarith) (by linarith)
  · rw [div_le_one (by linarith)]
    linarith

/-- Witness for C8 at the window [0, 1] and time 1/2. -/
theorem c8_witness :
    0 ≤ (GenInfo.new { channel := 0, t := 1 / 2 } 0 1).t ∧
    (GenInfo.new { channel := 0, t := 1 / 2 } 0 1).t ≤ 1 :=
  c8_renormalized_time_in_unit_interval { channel := 0, t := 1 / 2 } 0 1
    (by norm_num) (by norm_num) (by norm_num)

/-- C9 counterexample: the claim that a song whose channel clause is `on *`
does not fail at the channel clause is false on the code — `parse_song`
pattern-matches the clause's result against `Channels::One` and returns the
`MissingChannels` failure for `Channels::All` (src/parse/mod.rs lines
106-110), so parsing `"x" 1 s on *` fails with `MissingChannels` even though
the clause is present and well-formed. -/
theorem c9_counterexample_star_rejected :
    (parse_song M0 (init_state toks_song_star)).2 =
      PRes.err ParserError.MissingChannels := by
  decide

/-- C9 (amended): the channel-clause sub-parser itself accepts `*`
(returning `Channels::All` without failing), but the song-level caller
requires an integer channel count and maps the `All` result to the
missing-channel-count failure — so a song text with `on *` at song level
fails with `MissingChannels`. -/
theorem c9_amended_star_accepted_then_rejected :
    (∀ (sc : Nat) (sl : ℚ) (rest : List Token),
      parse_chan { song_channels := sc, song_length_s := sl, buffer := [],
                   input := tok_on :: tok_star :: rest } =
        ({ song_channels := sc, song_length_s := sl, buffer := [],
           input := rest }, PRes.some Channels.All)) ∧
    (parse_song M0 (init_state toks_song_star)).2 =
      PRes.err ParserError.MissingChannels := by
  exact ⟨fun sc sl rest => rfl, by decide⟩

/-- Witness for C9's amended theorem at a concrete state. -/
theorem c9_witness :
    parse_chan { song_channels := 0, song_length_s := 0, buffer := [],
                 input := [tok_on, tok_star] } =
      ({ song_channels := 0, song_length_s := 0, buffer := [],
         input := [] }, PRes.some Channels.All) :=
  c9_amended_star_accepted_then_rejected.1 0 0 []

/-- C10: every `Source` the parser produces has the numeric literal 0 as its
phase expression — `parse_source` always builds `SourceType::Periodic` with
`phase: Expression::zero()` (src/parse/mod.rs line 192) and the grammar has
no phase syntax. -/
theorem c10_parsed_phase_is_zero (st : ParserState) (src : Source)
    (h : (parse_source st).2 = PRes.some src) :
    src.ty.phase = Expression.zero := by
  unfold parse_source at h
  simp only [pstep] at h
  repeat' split at h
  all_goals try simp_all
  all_goals rw [parse_source_rest_ty _ _ _ h]
  all_goals rfl

/-- Witness for C10: a concrete successful `parse_source` run. -/
theorem c10_witness :
    (parse_source st_source).2 = PRes.some src_sin440 ∧
    src_sin440.ty.phase = Expression.zero :=
  ⟨by decide, c10_parsed_phase_is_zero st_source src_sin440 (by decide)⟩

end Wavgen
